import Mathlib

/-!
Shallow embedding of the ichigeki.info entrance-animation core
(src/lightning.ts, src/particles.ts, src/animation.ts) and proofs of the
specified behavioural properties.

Conventions of the embedding:
* Time is modelled in integer milliseconds (the source authors timeline
  offsets in seconds, all multiples of 0.1 s; effect delays are already in
  milliseconds).
* Numeric style values (opacities, velocities, particle counts) are exact
  rationals.
* DOM elements are records of the style fields the code mutates; absent
  elements are `none`.
* Promise-returning effect functions are modelled as pure functions that
  return the final element state together with the total scheduled timer
  time (in ms) before the promise resolves.
* The reduced-motion media query and the random branches are explicit
  boolean parameters.
-/

/-! ## Lightning module (src/lightning.ts) -/

/-- Flash intensity levels, from src/lightning.ts. -/
inductive FlashIntensity where
  | subtle
  | medium
  | full
deriving DecidableEq

/-- Configuration for each intensity level (duration ms, peak opacity, blue tint). -/
structure IntensityConfig where
  duration : Nat
  opacity : ℚ
  blueTint : Bool
deriving DecidableEq

/-- The INTENSITY_CONFIG record from src/lightning.ts. -/
def INTENSITY_CONFIG : FlashIntensity → IntensityConfig
  | .subtle => { duration := 50, opacity := 3/10, blueTint := false }
  | .medium => { duration := 100, opacity := 6/10, blueTint := false }
  | .full => { duration := 150, opacity := 9/10, blueTint := true }

/-- Ambient lightning minimum interval (ms), from src/lightning.ts. -/
def AMBIENT_MIN_INTERVAL : Nat := 8000

/-- Ambient lightning maximum interval (ms), from src/lightning.ts. -/
def AMBIENT_MAX_INTERVAL : Nat := 12000

/-- The style state of the lightning overlay element: the two style
properties the lightning module mutates (opacity and background). -/
structure OverlayStyle where
  opacity : ℚ
  background : String
deriving DecidableEq

/-- The gradient string written by applyBlueTint in src/lightning.ts. -/
def blueTintGradient : String :=
  "linear-gradient(180deg, rgba(100, 149, 237, 0.3) 0%, rgba(255, 255, 255, 0.9) 50%, rgba(100, 149, 237, 0.3) 100%)"

/-- applyBlueTint from src/lightning.ts: sets the overlay background to the gradient. -/
def applyBlueTint (overlay : OverlayStyle) : OverlayStyle :=
  { overlay with background := blueTintGradient }

/-- removeBlueTint from src/lightning.ts: restores the default (empty) background. -/
def removeBlueTint (overlay : OverlayStyle) : OverlayStyle :=
  { overlay with background := "" }

/-- flashLightning from src/lightning.ts. `reducedMotion` is the value of
the prefers-reduced-motion media query at call time. Returns the final
overlay style and the total scheduled timer time (ms) before the returned
promise resolves. The intermediate states follow the source exactly:
optionally apply tint, opacity to peak, wait duration, opacity to 0,
optionally remove tint, wait 50 ms, resolve. -/
def flashLightning (reducedMotion : Bool) (overlay : OverlayStyle)
    (intensity : FlashIntensity) : OverlayStyle × Nat :=
  if reducedMotion then (overlay, 0)
  else
    let config := INTENSITY_CONFIG intensity
    let o := if config.blueTint then applyBlueTint overlay else overlay
    let o := { o with opacity := config.opacity }
    -- setTimeout fires after config.duration ms
    let o := { o with opacity := 0 }
    let o := if config.blueTint then removeBlueTint o else o
    -- inner setTimeout(resolve, 50)
    (o, config.duration + 50)

/-- flickerLightning from src/lightning.ts. `thirdPulse` models the
outcome of the 50 percent random branch. Returns the final overlay style
and the total awaited delay (ms): 40 + 60 + 50 + 80, plus 40 + 30 when the
third pulse fires, plus the final 50 ms settling delay. -/
def flickerLightning (reducedMotion thirdPulse : Bool)
    (overlay : OverlayStyle) : OverlayStyle × Nat :=
  if reducedMotion then (overlay, 0)
  else
    -- first flash: 0.5 for 40 ms, off for 60 ms
    let o := { overlay with opacity := 1/2 }
    let o := { o with opacity := 0 }
    -- second flash: 0.7 for 50 ms, off for 80 ms
    let o := { o with opacity := 7/10 }
    let o := { o with opacity := 0 }
    -- optional third flash: wait 40 ms, 0.3 for 30 ms, off
    let (o, extra) :=
      if thirdPulse then
        let o2 := { o with opacity := 3/10 }
        let o2 := { o2 with opacity := 0 }
        (o2, 40 + 30)
      else (o, 0)
    (o, 40 + 60 + 50 + 80 + extra + 50)

/-! ## Ambient session state
(startAmbientLightning in src/lightning.ts plus the module-level
ambientCleanup wiring in src/animation.ts) -/

/-- The closure state of one ambient session in startAmbientLightning:
the isRunning flag and the pending setTimeout handle. -/
structure AmbientSessionState where
  isRunning : Bool
  timeoutId : Option Nat
deriving DecidableEq

/-- The global state touched by the ambient machinery: the overlay, the
ambient session, the recurring 5 s extra-glitch interval from
src/animation.ts, and whether the module-level ambientCleanup reference
in src/animation.ts is non-null. -/
structure AmbientGlobal where
  overlay : OverlayStyle
  session : AmbientSessionState
  glitchIntervalActive : Bool
  ambientCleanup : Bool
deriving DecidableEq

/-- scheduleNext from src/lightning.ts: if the session is running, arm a
fresh timer (setTimeout handle `id`); otherwise do nothing. -/
def scheduleNext (g : AmbientGlobal) (id : Nat) : AmbientGlobal :=
  if g.session.isRunning then
    { g with session := { g.session with timeoutId := some id } }
  else g

/-- startAmbientLightning from src/lightning.ts: set isRunning true and
schedule the first ambient timer. -/
def startAmbientLightning (g : AmbientGlobal) (firstTimerId : Nat) : AmbientGlobal :=
  let g := { g with session := { isRunning := true, timeoutId := none } }
  scheduleNext g firstTimerId

/-- The ambient timer callback from src/lightning.ts: if the session was
stopped the guard returns without any effect; otherwise run either a
flicker or a subtle flash on the overlay and reschedule. The returned
boolean reports whether an effect ran. -/
def ambientTimerFire (g : AmbientGlobal) (rm useFlicker thirdPulse : Bool)
    (nextId : Nat) : AmbientGlobal × Bool :=
  if g.session.isRunning then
    let o :=
      if useFlicker then (flickerLightning rm thirdPulse g.overlay).1
      else (flashLightning rm g.overlay .subtle).1
    (scheduleNext { g with overlay := o } nextId, true)
  else (g, false)

/-- The cleanup closure returned by startAmbientLightning in
src/lightning.ts: isRunning false, clearTimeout and null the handle,
overlay opacity to 0, removeBlueTint. -/
def ambientSessionCleanup (g : AmbientGlobal) : AmbientGlobal :=
  { g with
    session := { isRunning := false, timeoutId := none },
    overlay := { opacity := 0, background := "" } }

/-- The wrapped cleanup built in the ambient-phase callback of
src/animation.ts: run the session cleanup, then clearInterval on the
recurring extra-glitch interval. -/
def wrappedCleanup (g : AmbientGlobal) : AmbientGlobal :=
  { ambientSessionCleanup g with glitchIntervalActive := false }

/-- The ambient-phase timeline callback of src/animation.ts: start the
ambient session, start the 5 s extra-glitch interval, and store the
wrapped cleanup in the module-level ambientCleanup reference. -/
def ambientPhaseStart (g : AmbientGlobal) (firstTimerId : Nat) : AmbientGlobal :=
  let g := startAmbientLightning g firstTimerId
  { g with glitchIntervalActive := true, ambientCleanup := true }

/-- stopAmbientLightning from src/animation.ts: if the module-level
ambientCleanup reference is set, call it and null it; otherwise do
nothing. -/
def stopAmbientLightning (g : AmbientGlobal) : AmbientGlobal :=
  if g.ambientCleanup then { wrappedCleanup g with ambientCleanup := false }
  else g

/-! ## Particle velocity adapter (src/particles.ts) -/

/-- A particle velocity (components are exact rationals in this model). -/
structure Velocity where
  x : ℚ
  y : ℚ
deriving DecidableEq

/-- A live particle: the code touches only the (possibly null) velocity. -/
structure Particle where
  velocity : Option Velocity
deriving DecidableEq

/-- The value stored at options.particles.number.value: a number or some
other shape (the code guards with a typeof check). -/
inductive NumberValue where
  | num (q : ℚ)
  | other
deriving DecidableEq

/-- The options.particles.number record. -/
structure ParticleNumberOptions where
  value : NumberValue
deriving DecidableEq

/-- Container options: the optional chain options.particles?.number. -/
structure ContainerOptions where
  number : Option ParticleNumberOptions
deriving DecidableEq

/-- The particle container handle: live particles and options. -/
structure Container where
  particles : List Particle
  options : ContainerOptions
deriving DecidableEq

/-- The per-particle body of the accelerateParticles loop: multiply both
velocity components by 3 when a velocity is present. -/
def accelOne (p : Particle) : Particle :=
  match p.velocity with
  | none => p
  | some v => { p with velocity := some { x := v.x * 3, y := v.y * 3 } }

/-- The per-particle body of the resetParticles loop: divide both
velocity components by 3 when a velocity is present. -/
def resetOne (p : Particle) : Particle :=
  match p.velocity with
  | none => p
  | some v => { p with velocity := some { x := v.x / 3, y := v.y / 3 } }

/-- accelerateParticles from src/particles.ts: no-op on an absent handle;
otherwise multiply every live particle velocity by 3 and, when
options.particles.number.value is a number, multiply it by 1.5. -/
def accelerateParticles : Option Container → Option Container
  | none => none
  | some container =>
      let newParticles := container.particles.map accelOne
      let newNumber :=
        match container.options.number with
        | some n =>
            match n.value with
            | NumberValue.num currentValue =>
                some { value := NumberValue.num (currentValue * (3/2)) }
            | NumberValue.other => some n
        | none => none
      some { particles := newParticles, options := { number := newNumber } }

/-- resetParticles from src/particles.ts: no-op on an absent handle;
otherwise divide every live particle velocity by 3 and, when
options.particles.number.value is a number, divide it by 1.5. -/
def resetParticles : Option Container → Option Container
  | none => none
  | some container =>
      let newParticles := container.particles.map resetOne
      let newNumber :=
        match container.options.number with
        | some n =>
            match n.value with
            | NumberValue.num currentValue =>
                some { value := NumberValue.num (currentValue / (3/2)) }
            | NumberValue.other => some n
        | none => none
      some { particles := newParticles, options := { number := newNumber } }

/-! ## DOM model and orchestrator (src/animation.ts) -/

/-- The style state of a text or container element: the fields
src/animation.ts mutates (inline opacity, transform, filter, display and
the class list). -/
structure ElemStyle where
  opacity : String
  transform : String
  filter : String
  display : String
  classes : List String
deriving DecidableEq

/-- The document elements the orchestrator looks up, by logical role.
Absent elements are none. -/
structure Dom where
  loading : Option ElemStyle
  content : Option ElemStyle
  title : Option ElemStyle
  tagline : Option ElemStyle
  comingSoon : Option ElemStyle
  lightningOverlay : Option OverlayStyle
  slashOverlay : Option ElemStyle
  slashLine : Option ElemStyle
  burstOverlay : Option ElemStyle
  particlesContainer : Option Unit
deriving DecidableEq

/-- showContentImmediately from src/animation.ts: hide the loading
screen, reveal the content container, and put title, tagline and
coming-soon at their final visible states, each guarded on element
presence. One synchronous pass, no timers. -/
def showContentImmediately (d : Dom) : Dom :=
  { d with
    loading := d.loading.map (fun l => { l with display := "none" }),
    content := d.content.map (fun c =>
      { c with classes := c.classes.erase "hidden", opacity := "1" }),
    title := d.title.map (fun t =>
      { t with opacity := "1", transform := "scale(1)", filter := "blur(0px)" }),
    tagline := d.tagline.map (fun t =>
      { t with opacity := "1", transform := "translateY(0)" }),
    comingSoon := d.comingSoon.map (fun c => { c with opacity := "1" }) }

/-- The pre-timeline element setup in runEntranceAnimation (loading fade
to hidden, content container revealed, gsap.set initial hidden states for
title, tagline, coming-soon, slash overlay made visible). -/
def domPrepare (d : Dom) : Dom :=
  { d with
    loading := d.loading.map (fun l => { l with opacity := "0", display := "none" }),
    content := d.content.map (fun c =>
      { c with classes := c.classes.erase "hidden", opacity := "1" }),
    title := d.title.map (fun t =>
      { t with opacity := "0", transform := "scale(1.5)", filter := "blur(20px)" }),
    tagline := d.tagline.map (fun t =>
      { t with opacity := "0", transform := "translateY(30px)" }),
    comingSoon := d.comingSoon.map (fun c =>
      { c with opacity := "0", transform := "scale(0.8)" }),
    slashOverlay := d.slashOverlay.map (fun s => { s with opacity := "1" }) }

/-- The missing-required-elements guard of runEntranceAnimation: content,
title, tagline, coming-soon and the lightning overlay are required. -/
def requiredMissing (d : Dom) : Bool :=
  d.content.isNone || d.title.isNone || d.tagline.isNone ||
    d.comingSoon.isNone || d.lightningOverlay.isNone

/-- Labels for the actions scheduled on the GSAP timeline in
runEntranceAnimation, in source order. Glitch and shake labels carry the
millisecond duration passed to triggerGlitch and triggerShake. -/
inductive TLAction where
  | wait
  | accelerate
  | flicker
  | flashMedium
  | glitch (ms : Nat)
  | flashFull
  | slash
  | burst
  | shake (ms : Nat)
  | titleTween
  | particlesReset
  | glowPulse
  | secondSlash
  | taglineTween
  | comingSoonTween
  | delayedGlitch
  | ambientPhase
deriving DecidableEq

/-- GSAP position parameter: default (append at timeline end), a
relative offset past the timeline end, or the start of the most recently
added entry. -/
inductive Anchor where
  | atEnd
  | plusEq (offset : Nat)
  | prevStart
deriving DecidableEq

/-- One scheduled timeline entry: its action, absolute start time (ms)
and duration (ms). -/
structure TLEntry where
  label : TLAction
  start : Nat
  dur : Nat
deriving DecidableEq

/-- Timeline construction state: entries so far, the timeline end time
(its duration) and the start of the most recently added entry. -/
structure TLState where
  entries : List TLEntry
  endTime : Nat
  prevStart : Nat
deriving DecidableEq

/-- Add one entry at a GSAP position. A default add goes at the timeline
end; a relative offset adds past the end; prevStart reuses the start of
the most recently added entry. The timeline end grows to cover the new
entry. -/
def TLState.addStep (s : TLState) (a : TLAction) (anchor : Anchor) (dur : Nat) : TLState :=
  let start :=
    match anchor with
    | .atEnd => s.endTime
    | .plusEq offset => s.endTime + offset
    | .prevStart => s.prevStart
  { entries := s.entries ++ [{ label := a, start := start, dur := dur }],
    endTime := max s.endTime (start + dur),
    prevStart := start }

/-- The GSAP timeline built by runEntranceAnimation, entry by entry in
source order, with offsets in milliseconds (0.8 s darkness wait, the
anticipation callbacks at +=0.2/+=0.3/+=0.2/+=0.1/+=0.2, the impact
fan-out anchored at the start of the full flash, the 0.4 s title tween,
and the settle and ambient phase steps). -/
def entranceTL : TLState :=
  let s : TLState := { entries := [], endTime := 0, prevStart := 0 }
  let s := s.addStep .wait .atEnd 800
  let s := s.addStep .accelerate .atEnd 0
  let s := s.addStep .flicker (.plusEq 200) 0
  let s := s.addStep (.glitch 150) (.plusEq 300) 0
  let s := s.addStep .flashMedium (.plusEq 200) 0
  let s := s.addStep (.glitch 100) (.plusEq 100) 0
  let s := s.addStep .flicker (.plusEq 200) 0
  let s := s.addStep .flashFull .atEnd 0
  let s := s.addStep .slash .prevStart 0
  let s := s.addStep .burst .prevStart 0
  let s := s.addStep (.shake 500) .prevStart 0
  let s := s.addStep (.glitch 200) .prevStart 0
  let s := s.addStep .titleTween .prevStart 400
  let s := s.addStep .particlesReset .atEnd 0
  let s := s.addStep .glowPulse .atEnd 0
  let s := s.addStep .secondSlash (.plusEq 300) 0
  let s := s.addStep .taglineTween (.plusEq 200) 600
  let s := s.addStep .comingSoonTween (.plusEq 300) 500
  let s := s.addStep .delayedGlitch .atEnd 0
  let s := s.addStep .ambientPhase .atEnd 0
  s

/-- The scheduled entries of the entrance timeline. -/
def entranceTimeline : List TLEntry := entranceTL.entries

/-- Result of an initParticles attempt: a container, or a thrown error
(which runEntranceAnimation catches and logs). -/
inductive InitResult where
  | ok (c : Container)
  | fail
deriving DecidableEq

/-- The environment read by runEntranceAnimation at invocation time. -/
structure Env where
  reducedMotion : Bool
  dom : Dom
  initResult : InitResult

/-- The observable outcome of runEntranceAnimation: the document state
after the synchronous setup pass, the particle handle it holds, the
timeline it scheduled, the console warnings it logged, and whether it
took a bypass path. -/
structure RunOutcome where
  dom : Dom
  particles : Option Container
  timeline : List TLEntry
  warnings : List String
  bypassed : Bool
deriving DecidableEq

/-- runEntranceAnimation from src/animation.ts. Reduced motion active:
total bypass through showContentImmediately, nothing else. Required
element missing: warn and take the same bypass. Otherwise: attempt
particle initialization (a failure is caught and logged, leaving an
absent handle), run the synchronous element setup, and schedule the
entrance timeline. -/
def runEntranceAnimation (env : Env) : RunOutcome :=
  if env.reducedMotion then
    { dom := showContentImmediately env.dom, particles := none,
      timeline := [], warnings := [], bypassed := true }
  else if requiredMissing env.dom then
    { dom := showContentImmediately env.dom, particles := none,
      timeline := [],
      warnings := ["Animation: Required DOM elements not found, showing content immediately"],
      bypassed := true }
  else
    let initAttempt :=
      if env.dom.particlesContainer.isSome then
        match env.initResult with
        | .ok c => (some c, ([] : List String))
        | .fail => (none, ["Animation: Failed to initialize particles"])
      else (none, [])
    { dom := domPrepare env.dom, particles := initAttempt.1,
      timeline := entranceTimeline, warnings := initAttempt.2,
      bypassed := false }

/-! ## Concrete sample states used by witnesses and counterexamples -/

/-- A neutral element style. -/
def style0 : ElemStyle :=
  { opacity := "", transform := "", filter := "", display := "", classes := [] }

/-- A neutral overlay style. -/
def overlay0 : OverlayStyle := { opacity := 0, background := "" }

/-- A document with every element present. -/
def domAll : Dom :=
  { loading := some style0, content := some style0, title := some style0,
    tagline := some style0, comingSoon := some style0,
    lightningOverlay := some overlay0, slashOverlay := some style0,
    slashLine := some style0, burstOverlay := some style0,
    particlesContainer := some () }

/-- A document whose title element is absent. -/
def domNoTitle : Dom := { domAll with title := none }

/-- Ambient global state before anything started. -/
def ambientInitial : AmbientGlobal :=
  { overlay := overlay0,
    session := { isRunning := false, timeoutId := none },
    glitchIntervalActive := false, ambientCleanup := false }

/-- Ambient global state right after the ambient phase started. -/
def ambientStarted : AmbientGlobal := ambientPhaseStart ambientInitial 0

/-- Ambient global state never started, with the overlay mid-flash at
opacity one half. -/
def ambientHalf : AmbientGlobal :=
  { overlay := { opacity := 1/2, background := "" },
    session := { isRunning := false, timeoutId := none },
    glitchIntervalActive := false, ambientCleanup := false }

/-! ## Claim theorems -/

/-- C2: for every intensity level, flashLightning (with reduced motion
inactive) resolves after exactly the configured duration plus 50 ms of
scheduled timer time (subtle 100 ms, medium 150 ms, full 200 ms); at
resolution the overlay opacity is 0, and the background carries no tint
applied by this call (full removed the tint it applied, subtle and medium
left the background untouched). -/
theorem flash_resolves_exactly (overlay : OverlayStyle) (intensity : FlashIntensity) :
    (flashLightning false overlay intensity).2 = (INTENSITY_CONFIG intensity).duration + 50 ∧
    (flashLightning false overlay intensity).1.opacity = 0 ∧
    (flashLightning false overlay intensity).1.background =
      (if (INTENSITY_CONFIG intensity).blueTint then "" else overlay.background) ∧
    (flashLightning false overlay .subtle).2 = 100 ∧
    (flashLightning false overlay .medium).2 = 150 ∧
    (flashLightning false overlay .full).2 = 200 := by
  cases intensity <;>
    simp [flashLightning, INTENSITY_CONFIG, applyBlueTint, removeBlueTint]

/-- C4: flickerLightning (with reduced motion inactive) always resolves
after at least 280 ms (40+60+50+80+50) and at most 350 ms of scheduled
delays, the extra 70 ms (40+30) occurring exactly when the random third
pulse fires, and in both branches the overlay opacity is 0 at
resolution. -/
theorem flicker_timing_bounds (overlay : OverlayStyle) (thirdPulse : Bool) :
    280 ≤ (flickerLightning false thirdPulse overlay).2 ∧
    (flickerLightning false thirdPulse overlay).2 ≤ 350 ∧
    ((flickerLightning false thirdPulse overlay).2 = 350 ↔ thirdPulse = true) ∧
    ((flickerLightning false thirdPulse overlay).2 = 280 ↔ thirdPulse = false) ∧
    (flickerLightning false thirdPulse overlay).1.opacity = 0 := by
  cases thirdPulse <;> simp [flickerLightning]

/-- C10: for subtle and medium intensity, flashLightning never touches
the overlay background (any pre-existing tint survives unchanged); only
the full intensity has the tint flag enabled. Holds with or without
reduced motion. -/
theorem subtle_medium_preserve_background (overlay : OverlayStyle) (rm : Bool) :
    (flashLightning rm overlay .subtle).1.background = overlay.background ∧
    (flashLightning rm overlay .medium).1.background = overlay.background ∧
    (INTENSITY_CONFIG .subtle).blueTint = false ∧
    (INTENSITY_CONFIG .medium).blueTint = false ∧
    (INTENSITY_CONFIG .full).blueTint = true := by
  cases rm <;> simp [flashLightning, INTENSITY_CONFIG]

/-- Round-trip identity of the per-particle loop bodies: dividing by 3
exactly undoes multiplying by 3 (velocities are exact rationals in this
model). -/
theorem accel_reset_one (p : Particle) : resetOne (accelOne p) = p := by
  obtain ⟨v⟩ := p
  cases v with
  | none => rfl
  | some vel =>
      obtain ⟨vx, vy⟩ := vel
      have h3 : (3 : ℚ) ≠ 0 := by norm_num
      simp [accelOne, resetOne, mul_div_cancel_right₀ vx h3, mul_div_cancel_right₀ vy h3]

/-- C3: applying accelerateParticles (speedUp) then resetParticles
(slowDown) to the same particle snapshot restores every particle velocity
and the target particle count exactly, for every handle including a
container with zero particles; on an absent handle both operations are
no-ops (and, being total functions, never throw). -/
theorem speedUp_slowDown_roundtrip (handle : Option Container) :
    resetParticles (accelerateParticles handle) = handle ∧
    accelerateParticles none = none ∧
    resetParticles none = none := by
  refine ⟨?_, rfl, rfl⟩
  cases handle with
  | none => rfl
  | some container =>
      obtain ⟨ps, ⟨num⟩⟩ := container
      have h32 : (3/2 : ℚ) ≠ 0 := by norm_num
      have hmap : (ps.map accelOne).map resetOne = ps := by
        rw [List.map_map]
        have hid : resetOne ∘ accelOne = id := funext accel_reset_one
        rw [hid, List.map_id]
      cases num with
      | none => simp [accelerateParticles, resetParticles, hmap]
      | some n =>
          obtain ⟨v⟩ := n
          cases v with
          | num q =>
              simp [accelerateParticles, resetParticles, hmap,
                mul_div_cancel_right₀ q h32]
          | other => simp [accelerateParticles, resetParticles, hmap]

/-- C1: with the reduced-motion signal active at invocation,
runEntranceAnimation performs the total bypass: it schedules no timeline
entry (so no particle mutation and no flash or flicker is ever invoked),
holds no particle handle, and in the one synchronous
showContentImmediately pass sets title, tagline and coming-soon to
opacity 1 with neutral transform and filter and hides the loading
indicator, then resolves. -/
theorem reduced_motion_bypass (d : Dom) (ir : InitResult)
    (l t tg cs : ElemStyle)
    (hl : d.loading = some l) (ht : d.title = some t)
    (htg : d.tagline = some tg) (hcs : d.comingSoon = some cs) :
    (runEntranceAnimation ⟨true, d, ir⟩).timeline = [] ∧
    (runEntranceAnimation ⟨true, d, ir⟩).particles = none ∧
    (runEntranceAnimation ⟨true, d, ir⟩).dom = showContentImmediately d ∧
    (runEntranceAnimation ⟨true, d, ir⟩).dom.title =
      some { t with opacity := "1", transform := "scale(1)", filter := "blur(0px)" } ∧
    (runEntranceAnimation ⟨true, d, ir⟩).dom.tagline =
      some { tg with opacity := "1", transform := "translateY(0)" } ∧
    (runEntranceAnimation ⟨true, d, ir⟩).dom.comingSoon =
      some { cs with opacity := "1" } ∧
    (runEntranceAnimation ⟨true, d, ir⟩).dom.loading =
      some { l with display := "none" } := by
  refine ⟨rfl, rfl, rfl, ?_, ?_, ?_, ?_⟩ <;>
    simp [runEntranceAnimation, showContentImmediately, hl, ht, htg, hcs]

/-- C1 witness: the bypass evaluated on the concrete all-elements
document. -/
theorem reduced_motion_bypass_witness :
    (runEntranceAnimation ⟨true, domAll, .fail⟩).timeline = [] ∧
    (runEntranceAnimation ⟨true, domAll, .fail⟩).particles = none ∧
    (runEntranceAnimation ⟨true, domAll, .fail⟩).dom = showContentImmediately domAll ∧
    (runEntranceAnimation ⟨true, domAll, .fail⟩).dom.title =
      some { style0 with opacity := "1", transform := "scale(1)", filter := "blur(0px)" } ∧
    (runEntranceAnimation ⟨true, domAll, .fail⟩).dom.tagline =
      some { style0 with opacity := "1", transform := "translateY(0)" } ∧
    (runEntranceAnimation ⟨true, domAll, .fail⟩).dom.comingSoon =
      some { style0 with opacity := "1" } ∧
    (runEntranceAnimation ⟨true, domAll, .fail⟩).dom.loading =
      some { style0 with display := "none" } :=
  reduced_motion_bypass domAll .fail style0 style0 style0 style0 rfl rfl rfl rfl

/-- C5: if any required element (content container, title, tagline,
coming-soon marker, lightning overlay) is absent, runEntranceAnimation
(a total function, so it cannot throw) schedules no effect, holds no
particle handle, and produces exactly the reveal-everything end state of
the reduced-motion bypass. -/
theorem missing_required_fallback (d : Dom) (ir : InitResult)
    (h : d.content = none ∨ d.title = none ∨ d.tagline = none ∨
      d.comingSoon = none ∨ d.lightningOverlay = none) :
    (runEntranceAnimation ⟨false, d, ir⟩).dom = showContentImmediately d ∧
    (runEntranceAnimation ⟨false, d, ir⟩).timeline = [] ∧
    (runEntranceAnimation ⟨false, d, ir⟩).particles = none ∧
    (runEntranceAnimation ⟨false, d, ir⟩).bypassed = true ∧
    (runEntranceAnimation ⟨false, d, ir⟩).dom =
      (runEntranceAnimation ⟨true, d, ir⟩).dom := by
  have hm : requiredMissing d = true := by
    rcases h with h | h | h | h | h <;> simp [requiredMissing, h]
  refine ⟨?_, ?_, ?_, ?_, ?_⟩ <;> simp [runEntranceAnimation, hm]

/-- C5 witness: the fallback evaluated on the concrete document whose
title is absent. -/
theorem missing_required_fallback_witness :
    (runEntranceAnimation ⟨false, domNoTitle, .fail⟩).dom = showContentImmediately domNoTitle ∧
    (runEntranceAnimation ⟨false, domNoTitle, .fail⟩).timeline = [] ∧
    (runEntranceAnimation ⟨false, domNoTitle, .fail⟩).particles = none ∧
    (runEntranceAnimation ⟨false, domNoTitle, .fail⟩).bypassed = true ∧
    (runEntranceAnimation ⟨false, domNoTitle, .fail⟩).dom =
      (runEntranceAnimation ⟨true, domNoTitle, .fail⟩).dom :=
  missing_required_fallback domNoTitle .fail (Or.inr (Or.inl rfl))

/-- C8: when particle initialization fails (InitResult.fail models the
thrown error, which the source catches in its try block),
runEntranceAnimation logs the failure warning, does not propagate it
(the outcome is an ordinary non-bypassed run), proceeds to schedule the
full entrance timeline with an absent particle handle, and all later
particle mutations on that absent handle are no-ops. -/
theorem particle_failure_recovery (d : Dom)
    (hreq : requiredMissing d = false)
    (hpc : d.particlesContainer.isSome = true) :
    (runEntranceAnimation ⟨false, d, .fail⟩).particles = none ∧
    (runEntranceAnimation ⟨false, d, .fail⟩).warnings =
      ["Animation: Failed to initialize particles"] ∧
    (runEntranceAnimation ⟨false, d, .fail⟩).timeline = entranceTimeline ∧
    (runEntranceAnimation ⟨false, d, .fail⟩).bypassed = false ∧
    accelerateParticles none = none ∧
    resetParticles none = none := by
  refine ⟨?_, ?_, ?_, ?_, rfl, rfl⟩ <;> simp [runEntranceAnimation, hreq, hpc]

/-- C8 witness: a failed initialization on the concrete all-elements
document. -/
theorem particle_failure_recovery_witness :
    (runEntranceAnimation ⟨false, domAll, .fail⟩).particles = none ∧
    (runEntranceAnimation ⟨false, domAll, .fail⟩).warnings =
      ["Animation: Failed to initialize particles"] ∧
    (runEntranceAnimation ⟨false, domAll, .fail⟩).timeline = entranceTimeline ∧
    (runEntranceAnimation ⟨false, domAll, .fail⟩).bypassed = false ∧
    accelerateParticles none = none ∧
    resetParticles none = none :=
  particle_failure_recovery domAll rfl rfl

/-- C6 counterexample: before any ambient session was started the
module-level cleanup reference is null, so stopAmbientLightning is a pure
no-op; on a state whose overlay sits at opacity one half (for example
mid-flicker during the entrance sequence) the call leaves it there, so
the claim that after the call the overlay is at opacity 0 is false. -/
theorem stop_before_start_not_reset :
    stopAmbientLightning ambientHalf = ambientHalf ∧
    (stopAmbientLightning ambientHalf).overlay.opacity ≠ 0 := by
  refine ⟨rfl, ?_⟩
  norm_num [stopAmbientLightning, ambientHalf]

/-- C6 (amended): stopAmbientLightning never throws (it is total) and
never double-cancels: it is idempotent, a call before any start is a pure
no-op that preserves the overlay state (leaving it at opacity 0 untinted
exactly when it already was, as in the neutral initial state), and a call
after a session was started forces the overlay to opacity 0 with no tint
and stops the session. -/
theorem stop_idempotent_reset (g : AmbientGlobal) :
    stopAmbientLightning (stopAmbientLightning g) = stopAmbientLightning g ∧
    (g.ambientCleanup = false → stopAmbientLightning g = g) ∧
    (g.ambientCleanup = true →
      (stopAmbientLightning g).overlay.opacity = 0 ∧
      (stopAmbientLightning g).overlay.background = "" ∧
      (stopAmbientLightning g).session.isRunning = false) := by
  cases hg : g.ambientCleanup <;>
    simp [stopAmbientLightning, wrappedCleanup, ambientSessionCleanup, hg]

/-- C6 witness: idempotence and the forced overlay reset on the concrete
started state, and the no-op on the concrete never-started state. -/
theorem stop_idempotent_reset_witness :
    stopAmbientLightning (stopAmbientLightning ambientStarted) =
      stopAmbientLightning ambientStarted ∧
    stopAmbientLightning ambientInitial = ambientInitial ∧
    (stopAmbientLightning ambientStarted).overlay.opacity = 0 ∧
    (stopAmbientLightning ambientStarted).overlay.background = "" ∧
    (stopAmbientLightning ambientStarted).session.isRunning = false :=
  ⟨(stop_idempotent_reset ambientStarted).1,
   (stop_idempotent_reset ambientInitial).2.1 rfl,
   ((stop_idempotent_reset ambientStarted).2.2 rfl).1,
   ((stop_idempotent_reset ambientStarted).2.2 rfl).2.1,
   ((stop_idempotent_reset ambientStarted).2.2 rfl).2.2⟩

/-- C7: once the cleanup reference is set (the ambient phase ran),
stopAmbientLightning stops the session flag, cancels the pending ambient
timer, and cancels the recurring 5 s extra-glitch interval in the same
call; afterwards the stopped session schedules nothing further
(scheduleNext is a no-op) and a stale ambient timer firing runs no flash
or flicker and reschedules nothing. -/
theorem stop_cancels_all (g : AmbientGlobal) (h : g.ambientCleanup = true) :
    (stopAmbientLightning g).session.isRunning = false ∧
    (stopAmbientLightning g).session.timeoutId = none ∧
    (stopAmbientLightning g).glitchIntervalActive = false ∧
    (∀ id, scheduleNext (stopAmbientLightning g) id = stopAmbientLightning g) ∧
    (∀ rm uf tp nid,
      ambientTimerFire (stopAmbientLightning g) rm uf tp nid =
        (stopAmbientLightning g, false)) := by
  refine ⟨?_, ?_, ?_, ?_, ?_⟩ <;>
    simp [stopAmbientLightning, wrappedCleanup, ambientSessionCleanup, h,
      scheduleNext, ambientTimerFire]

/-- C7 witness: stop on the concrete started ambient state, with a
concrete rescheduling attempt and a concrete stale timer firing. -/
theorem stop_cancels_all_witness :
    (stopAmbientLightning ambientStarted).session.isRunning = false ∧
    (stopAmbientLightning ambientStarted).session.timeoutId = none ∧
    (stopAmbientLightning ambientStarted).glitchIntervalActive = false ∧
    scheduleNext (stopAmbientLightning ambientStarted) 7 =
      stopAmbientLightning ambientStarted ∧
    ambientTimerFire (stopAmbientLightning ambientStarted) false true false 3 =
      (stopAmbientLightning ambientStarted, false) :=
  ⟨(stop_cancels_all ambientStarted rfl).1,
   (stop_cancels_all ambientStarted rfl).2.1,
   (stop_cancels_all ambientStarted rfl).2.2.1,
   (stop_cancels_all ambientStarted rfl).2.2.2.1 7,
   (stop_cancels_all ambientStarted rfl).2.2.2.2 false true false 3⟩

/-- C9 counterexample: the final anticipation flicker is scheduled at
1800 ms (200 ms past the 1600 ms glitch, which is exactly the timeline
end where the impact fan-out is appended), so a sixth effect callback
that is none of the five impact effects (and not the title tween) shares
the impact scheduling instant: seven entries in all start at 1800 ms,
refuting that exactly five effects are issued at that instant. -/
theorem impact_instant_extra_flicker :
    ({ label := .flicker, start := 1800, dur := 0 } : TLEntry) ∈ entranceTimeline ∧
    ((entranceTimeline.filter (fun e => e.start == 1800)).map TLEntry.label).length = 7 := by
  decide

/-- C9 (amended): the five impact effects (full-intensity flash, slash
reveal, burst reveal, 500 ms shake, 200 ms glitch) are all issued at the
single scheduling instant 1800 ms, anchored at the start of the first of
them (the full flash, the first default-positioned entry at the timeline
end) and concurrent with the title reveal tween, with no completion
ordering imposed; however the final anticipation flicker also lands at
that same instant, so six effect callbacks (plus the title tween) share
it rather than exactly five. -/
theorem impact_fanout_characterization :
    ((entranceTimeline.filter (fun e => e.start == 1800)).map TLEntry.label) =
      [.flicker, .flashFull, .slash, .burst, .shake 500, .glitch 200, .titleTween] ∧
    ((entranceTimeline.filter (fun e => e.label == TLAction.flashFull)).map TLEntry.start) =
      [1800] ∧
    ((entranceTimeline.filter (fun e => e.label == TLAction.titleTween)).map TLEntry.start) =
      [1800] := by
  decide
